import Mathlib

/-!
Shallow embedding of the order-pricing, delivery-eligibility and
order-lifecycle core of the NY Pizza Woodstock backend
(backend/server.py) together with the payment service
(backend/payment_service.py).

Modelling conventions:
* Python float amounts are modelled as exact rationals; the builtin
  round(x, 2) is modelled as rounding half to even at the second
  decimal digit, the deterministic ideal of the Python builtin.
* Timestamps are natural numbers counted in minutes, so that
  datetime.utcnow() + timedelta(minutes = k) becomes now + k.
* The MongoDB orders collection is a list of Order records; insert_one
  appends, and update_one updates the first matching document and
  reports whether the document actually changed (modified_count).
* FastAPI HTTPException outcomes are modelled by the Err type; the
  comment on each constructor records the HTTP status and detail text
  raised in server.py.
* Pydantic request models arrive fully parsed: fields the client omits
  carry their declared defaults (delivery_fee = 0.0, status =
  "pending", ...), and a client may supply any value for any field.
-/

namespace Pizza

/-- Model of the Python builtin round(x, 2) restricted to the integer
result scaled by 100: round half to even. -/
def round_half_even (x : ℚ) : ℤ :=
  let f : ℤ := ⌊x⌋
  let r : ℚ := x - f
  if r < 1/2 then f
  else if 1/2 < r then f + 1
  else if f % 2 = 0 then f else f + 1

/-- Model of the Python builtin round(x, 2): round to two decimal digits,
half to even. -/
def round2 (x : ℚ) : ℚ := (round_half_even (x * 100) : ℚ) / 100

/-- Model of the Python builtin int() on a float: truncate toward zero. -/
def py_int (x : ℚ) : ℤ := if 0 ≤ x then ⌊x⌋ else ⌈x⌉

/-- server.py class Address (pydantic model). -/
structure Address where
  street : String
  city : String
  state : String
  zip_code : String
  phone : Option String
deriving DecidableEq

/-- server.py class CartItem (pydantic model). -/
structure CartItem where
  item_id : String
  item_type : String
  name : String
  size : Option String
  toppings : List String
  quantity : ℤ
  price : ℚ
  special_instructions : Option String
deriving DecidableEq

/-- server.py class User (pydantic model). -/
structure User where
  id : String
  email : String
  first_name : String
  last_name : String
  phone : String
  is_admin : Bool
  created_at : ℕ
deriving DecidableEq

/-- server.py class Order (pydantic model). It doubles as the request
body of POST /api/orders, so every field — including subtotal,
delivery_fee, tax, total and status — can be client-supplied; pydantic
defaults are delivery_fee = 0.0 and status = "pending". -/
structure Order where
  id : String
  user_id : String
  items : List CartItem
  delivery_address : Option Address
  order_type : String
  payment_method : String
  subtotal : ℚ
  delivery_fee : ℚ
  tax : ℚ
  total : ℚ
  status : String
  created_at : ℕ
  estimated_delivery : Option ℕ
  special_instructions : Option String
deriving DecidableEq

/-- The branch structure of server.py calculate_delivery_fee, taken over
the distance variable the source sets just above the branches
(base_fee = 4.00, free radius 5 miles, max_distance = 9 miles,
2.00 dollars per mile beyond the radius).  Result order follows the
source: (fee, can_deliver, distance). -/
def calculate_delivery_fee_at (distance : ℚ) : ℚ × Bool × ℚ :=
  let base_fee : ℚ := 4
  let max_distance : ℚ := 9
  if distance ≤ 5 then (base_fee, true, distance)
  else if distance ≤ max_distance then (base_fee + (distance - 5) * 2, true, distance)
  else (0, false, distance)

/-- server.py calculate_delivery_fee: the address is ignored and the
stand-in distance is the constant 3, so the first branch is taken. -/
def calculate_delivery_fee (_delivery_address : String) : ℚ × Bool × ℚ :=
  calculate_delivery_fee_at 3

/-- The f-string f"\x7bstreet\x7d, \x7bcity\x7d, \x7bstate\x7d" built by
create_order before calling calculate_delivery_fee. -/
def address_string (a : Address) : String :=
  a.street ++ ", " ++ a.city ++ ", " ++ a.state

/-- Domain errors raised by the handlers in server.py, with the
HTTPException each constructor stands for. -/
inductive Err where
  /-- HTTP 400 "Address outside delivery area" (AddressOutsideServiceAreaError). -/
  | addressOutsideServiceArea
  /-- HTTP 400 "Invalid status" (UnknownStatusError). -/
  | invalidStatus
  /-- HTTP 404 "Order not found" (OrderNotFoundError). -/
  | orderNotFound
  /-- HTTP 403 "Admin access required" (AuthorizationError). -/
  | adminRequired
deriving DecidableEq

/-- The MongoDB orders collection. -/
abbrev DB := List Order

/-- The delivery-fee step of create_order (server.py lines 262-270): when
the order is a delivery order and a delivery address is present
(Python truthiness of the optional field), the resolver is consulted;
an ineligible address raises HTTP 400, otherwise the resolver fee is
written into the order.  In every other case the order passes through
— in particular delivery orders without an address are not rejected. -/
def apply_delivery_fee (resolver : String → ℚ × Bool × ℚ) (o1 : Order) :
    Except Err Order :=
  if o1.order_type = "delivery" then
    match o1.delivery_address with
    | some addr =>
        let r := resolver (address_string addr)
        if r.2.1 = false then Except.error Err.addressOutsideServiceArea
        else Except.ok { o1 with delivery_fee := r.1 }
    | none => Except.ok o1
  else Except.ok o1

/-- The pricing and scheduling tail of create_order (server.py lines
272-281): tax = round(subtotal * 0.085, 2); total = subtotal +
delivery_fee + tax with no rounding applied to the sum; estimated
delivery now + 45 minutes for delivery orders, now + 25 otherwise. -/
def finalize_order (o2 : Order) (now : ℕ) : Order :=
  let tax_rate : ℚ := 85/1000
  let tax := round2 (o2.subtotal * tax_rate)
  let total := o2.subtotal + o2.delivery_fee + tax
  let minutes : ℕ := if o2.order_type = "delivery" then 45 else 25
  { o2 with tax := tax, total := total, estimated_delivery := some (now + minutes) }

/-- server.py create_order (POST /api/orders), with the eligibility
resolver abstracted as a parameter so that the orchestration logic can
be stated for any resolver result; the handler itself instantiates it
with calculate_delivery_fee.  The handler overwrites user_id from the
authenticated user, runs the delivery-fee step, prices the order with
the client-supplied subtotal, and appends the document to the orders
collection.  No cart, subtotal or address validation is performed. -/
def create_order_gen (resolver : String → ℚ × Bool × ℚ) (order_data : Order)
    (current_user : User) (now : ℕ) (db : DB) : Except Err (Order × DB) :=
  match apply_delivery_fee resolver { order_data with user_id := current_user.id } with
  | Except.error e => Except.error e
  | Except.ok o2 =>
      let o3 := finalize_order o2 now
      Except.ok (o3, db ++ [o3])

/-- server.py create_order with its actual resolver. -/
def create_order (order_data : Order) (current_user : User) (now : ℕ) (db : DB) :
    Except Err (Order × DB) :=
  create_order_gen calculate_delivery_fee order_data current_user now db

/-- The order create_order persists and returns, when it succeeds. -/
def created_order (order_data : Order) (current_user : User) (now : ℕ) (db : DB) :
    Option Order :=
  match create_order order_data current_user now db with
  | Except.ok (o, _) => some o
  | Except.error _ => none

/-- The orders collection after create_order, when it succeeds. -/
def created_db (order_data : Order) (current_user : User) (now : ℕ) (db : DB) :
    Option DB :=
  match create_order order_data current_user now db with
  | Except.ok (_, d) => some d
  | Except.error _ => none

/-- server.py valid_statuses in update_order_status. -/
def valid_statuses : List String :=
  ["pending", "confirmed", "preparing", "ready", "delivered", "cancelled"]

/-- MongoDB update_one(filter on id, set status): update the first
matching document; the returned count is modified_count, which is 0
when no document matches or the matching document already carries the
target status. -/
def mongo_update_status (order_id new_status : String) : DB → ℕ × DB
  | [] => (0, [])
  | o :: rest =>
      if o.id = order_id then
        (if o.status = new_status then 0 else 1, { o with status := new_status } :: rest)
      else
        let r := mongo_update_status order_id new_status rest
        (r.1, o :: r.2)

/-- server.py update_order_status (PUT /api/admin/orders/.../status):
admin gate, membership check of the target status in valid_statuses,
then the MongoDB update; modified_count = 0 surfaces as HTTP 404.  The
pair returned carries the handler outcome and the resulting orders
collection. -/
def update_order_status (order_id new_status : String) (current_user : User)
    (db : DB) : Except Err Unit × DB :=
  if current_user.is_admin = false then (Except.error Err.adminRequired, db)
  else if new_status ∉ valid_statuses then (Except.error Err.invalidStatus, db)
  else
    let r := mongo_update_status order_id new_status db
    if r.1 = 0 then (Except.error Err.orderNotFound, r.2)
    else (Except.ok (), r.2)

/-- payment_service.py PaymentProvider. -/
inductive PaymentProvider where
  | stripe
  | paypal
  | square
  | apple_pay
  | google_pay
  | cash
deriving DecidableEq

/-- The .value string of each PaymentProvider member. -/
def provider_value : PaymentProvider → String
  | PaymentProvider.stripe => "stripe"
  | PaymentProvider.paypal => "paypal"
  | PaymentProvider.square => "square"
  | PaymentProvider.apple_pay => "apple_pay"
  | PaymentProvider.google_pay => "google_pay"
  | PaymentProvider.cash => "cash"

/-- payment_service.py PaymentService configuration flags: whether each
card processor was initialised with a real key at construction time. -/
structure PaymentService where
  stripe_enabled : Bool
  paypal_enabled : Bool
  square_enabled : Bool
deriving DecidableEq

/-- Python metadata.get(key, dflt) on a dict modelled as an association
list. -/
def dict_get (md : List (String × String)) (key dflt : String) : String :=
  match md.find? (fun p => p.1 = key) with
  | some p => p.2
  | none => dflt

/-- The dict returned by the payment-service entry points; keys a branch
does not set are modelled as none. -/
structure IntentDict where
  id : String
  status : String
  amount : Option ℚ
  currency : Option String
  provider : String
  requires_action : Option Bool
  payment_method : Option String
  approval_url : Option String
deriving DecidableEq

/-- Outcome of a payment-service call.  The stripe branches hand the call
to the remote Stripe SDK, so their response is not determined by this
code and is modelled as an external-call marker carrying the arguments
passed; the ValueError and AttributeError constructors model the
exceptions the Python code raises. -/
inductive PayResult where
  | ok (d : IntentDict)
  | externalStripeIntent (amount_cents : ℤ) (currency : String)
      (metadata : List (String × String))
  | externalStripeConfirm (payment_intent_id : String)
  | valueError (msg : String)
  | attributeError
deriving DecidableEq

/-- payment_service.py PaymentService.create_payment_intent.  The cash
branch builds its pseudo-intent locally with status
PaymentStatus.PENDING.value; metadata defaults to None, and the cash
branch calls metadata.get, which raises AttributeError when metadata
is None.  The paypal and square branches are local placeholder stubs;
only the stripe branch reaches an external SDK. -/
def create_payment_intent (svc : PaymentService) (amount : ℚ) (currency : String)
    (provider : PaymentProvider) (metadata : Option (List (String × String))) :
    PayResult :=
  if provider = PaymentProvider.cash then
    match metadata with
    | none => PayResult.attributeError
    | some md =>
        PayResult.ok
          { id := "cash_" ++ toString (py_int (amount * 100)) ++ "_" ++
              dict_get md "order_id" "unknown",
            status := "pending",
            amount := some amount,
            currency := some currency,
            provider := "cash",
            requires_action := some false,
            payment_method := some "cash",
            approval_url := none }
  else if provider = PaymentProvider.stripe ∧ svc.stripe_enabled = true then
    PayResult.externalStripeIntent (py_int (amount * 100)) currency (metadata.getD [])
  else if provider = PaymentProvider.paypal ∧ svc.paypal_enabled = true then
    PayResult.ok
      { id := "paypal_placeholder_" ++ toString (py_int (amount * 100)),
        status := "pending",
        amount := some amount,
        currency := some currency,
        provider := "paypal",
        requires_action := none,
        payment_method := none,
        approval_url := some "https://paypal.com/payment/placeholder" }
  else if provider = PaymentProvider.square ∧ svc.square_enabled = true then
    PayResult.ok
      { id := "square_placeholder_" ++ toString (py_int (amount * 100)),
        status := "pending",
        amount := some amount,
        currency := some currency,
        provider := "square",
        requires_action := none,
        payment_method := none,
        approval_url := none }
  else
    PayResult.valueError
      ("Payment provider " ++ provider_value provider ++ " not available or not configured")

/-- payment_service.py PaymentService.confirm_payment: cash returns a
completed dict locally, stripe (when enabled) reaches the external
SDK, every other case returns a pending dict locally. -/
def confirm_payment (svc : PaymentService) (payment_id : String)
    (provider : PaymentProvider) : PayResult :=
  if provider = PaymentProvider.cash then
    PayResult.ok
      { id := payment_id,
        status := "completed",
        amount := none,
        currency := none,
        provider := "cash",
        requires_action := none,
        payment_method := none,
        approval_url := none }
  else if provider = PaymentProvider.stripe ∧ svc.stripe_enabled = true then
    PayResult.externalStripeConfirm payment_id
  else
    PayResult.ok
      { id := payment_id,
        status := "pending",
        amount := none,
        currency := none,
        provider := provider_value provider,
        requires_action := none,
        payment_method := none,
        approval_url := none }

/-- The status field of a locally produced payment dict, none for
external calls and raised exceptions. -/
def intent_status : PayResult → Option String
  | PayResult.ok d => some d.status
  | _ => none

/-- Whether a payment-service call left the process (stripe SDK). -/
def is_external : PayResult → Bool
  | PayResult.externalStripeIntent _ _ _ => true
  | PayResult.externalStripeConfirm _ => true
  | _ => false

/-- Spec-side definition, for comparison with the persisted subtotal:
the sum of unitPrice times quantity over the cart lines. -/
def spec_line_subtotal (items : List CartItem) : ℚ :=
  items.foldr (fun it acc => it.price * (it.quantity : ℚ) + acc) 0

/-- Sample cart line matching the repository test data. -/
def sample_item : CartItem :=
  { item_id := "test-pizza-id", item_type := "pizza", name := "NY Cheese Pizza",
    size := some "Medium", toppings := [], quantity := 1, price := 1395/100,
    special_instructions := none }

/-- Sample authenticated customer. -/
def sample_user : User :=
  { id := "u1", email := "user@example.com", first_name := "A", last_name := "B",
    phone := "555-0100", is_admin := false, created_at := 0 }

/-- Sample admin actor. -/
def admin_user : User :=
  { id := "a1", email := "admin@example.com", first_name := "C", last_name := "D",
    phone := "555-0101", is_admin := true, created_at := 0 }

/-- Sample delivery address. -/
def sample_address : Address :=
  { street := "742 Evergreen Terrace", city := "Woodstock", state := "GA",
    zip_code := "30188", phone := none }

/-- The pickup request of the repository smoke test: one 13.95 line,
client-supplied subtotal 13.95, delivery fee 0. -/
def base_request : Order :=
  { id := "r0", user_id := "placeholder", items := [sample_item],
    delivery_address := none, order_type := "pickup", payment_method := "cash",
    subtotal := 1395/100, delivery_fee := 0, tax := 0, total := 0,
    status := "pending", created_at := 0, estimated_delivery := none,
    special_instructions := none }

/-- Request refuting C1: one cart line of unit price 10 and quantity 1,
but client-supplied subtotal 999. -/
def c1_request : Order :=
  { base_request with
    items := [({ sample_item with price := 10, quantity := 1 } : CartItem)],
    subtotal := 999 }

/-- Request refuting C2: a pickup order whose client supplied
delivery_fee 7. -/
def c2_request : Order := { base_request with delivery_fee := 7 }

/-- Request refuting the concrete instance of C4: the pickup request with
subtotal 13.95 but client-supplied delivery_fee 100. -/
def c4_request : Order := { base_request with delivery_fee := 100 }

/-- Request refuting the rounding clause of C4: a pickup request with
client-supplied sub-cent subtotal 0.111. -/
def c4b_request : Order := { base_request with subtotal := 111/1000 }

/-- The order create_order persists for base_request and sample_user at
time 0: user_id overwritten, tax 1.19, total 15.14, pickup estimate
25 minutes. -/
def c4_expected : Order :=
  { base_request with
    user_id := "u1", tax := 119/100, total := 1514/100,
    estimated_delivery := some 25 }

/-- Request refuting C5: an empty cart. -/
def c5_request : Order := { base_request with items := [], subtotal := 0 }

/-- Request refuting C6: a delivery order without a delivery address. -/
def c6_request : Order :=
  { base_request with order_type := "delivery", delivery_address := none }

/-- A delivery request carrying an address, for C7. -/
def c7_request : Order :=
  { base_request with
    order_type := "delivery", delivery_address := some sample_address }

/-- A resolver stub answering ineligible at distance 12, for exercising
the rejection path of the create_order orchestration. -/
def ineligible_resolver : String → ℚ × Bool × ℚ := fun _ => (0, false, 12)

/-- A persisted order sitting in the terminal status delivered. -/
def delivered_order : Order :=
  { base_request with id := "o1", user_id := "u1", status := "delivered" }

/-- A payment service with no card processor configured (all keys left as
placeholders), as in the repository default environment. -/
def sample_service : PaymentService :=
  { stripe_enabled := false, paypal_enabled := false, square_enabled := false }

/-- Evaluation lemma: create_order always succeeds; the persisted order
is the finalized request with user_id overwritten and, for delivery
orders carrying an address, delivery fee 4 (the constant resolver
result); the document is appended to the collection. -/
theorem create_order_run (order_data : Order) (current_user : User) (now : ℕ) (db : DB) :
    create_order order_data current_user now db =
      (let o1 : Order := { order_data with user_id := current_user.id }
       let o2 : Order :=
         if o1.order_type = "delivery" ∧ o1.delivery_address.isSome = true then
           { o1 with delivery_fee := 4 }
         else o1
       Except.ok (finalize_order o2 now, db ++ [finalize_order o2 now])) := by
  unfold create_order create_order_gen apply_delivery_fee
  by_cases hd : order_data.order_type = "delivery"
  · cases ha : order_data.delivery_address with
    | none => simp [hd, ha]
    | some a =>
        have h35 : (3:ℚ) ≤ 5 := by norm_num
        simp [hd, ha, calculate_delivery_fee, calculate_delivery_fee_at, h35]
  · simp [hd]

/-- Claim C1 counterexample: create_order accepts a request whose
client-supplied subtotal is 999 while its single cart line sums to 10,
and persists subtotal 999 — the subtotal is not computed server-side. -/
theorem c1_counterexample :
    (created_order c1_request sample_user 0 []).map Order.subtotal = some 999 ∧
    spec_line_subtotal c1_request.items = 10 ∧
    (created_order c1_request sample_user 0 []).map Order.subtotal ≠
      some (spec_line_subtotal c1_request.items) := by
  have h := create_order_run c1_request sample_user 0 []
  have he : (created_order c1_request sample_user 0 []).map Order.subtotal = some 999 := by
    simp only [created_order]
    rw [h]
    simp [finalize_order, c1_request, base_request]
  have hs : spec_line_subtotal c1_request.items = 10 := by
    norm_num [spec_line_subtotal, c1_request, base_request, sample_item]
  refine ⟨he, hs, ?_⟩
  rw [he, hs]
  simp

/-- Claim C1 amended: for every request accepted by create_order, the
persisted subtotal equals the client-supplied subtotal unchanged; the
handler never recomputes it from the cart lines. -/
theorem c1_amended_subtotal_passthrough (order_data : Order) (current_user : User)
    (now : ℕ) (db : DB) :
    (created_order order_data current_user now db).map Order.subtotal =
      some order_data.subtotal := by
  have h := create_order_run order_data current_user now db
  simp only [created_order, h]
  split <;> simp [finalize_order]

/-- Claim C2 counterexample: a pickup order with client-supplied
delivery_fee 7 is accepted and persisted with delivery fee 7, not 0. -/
theorem c2_counterexample :
    c2_request.order_type = "pickup" ∧
    (created_order c2_request sample_user 0 []).map Order.delivery_fee = some 7 ∧
    (created_order c2_request sample_user 0 []).map Order.delivery_fee ≠ some 0 := by
  have h := create_order_run c2_request sample_user 0 []
  have he : (created_order c2_request sample_user 0 []).map Order.delivery_fee = some 7 := by
    simp only [created_order]
    rw [h]
    simp [finalize_order, c2_request, base_request]
  refine ⟨rfl, he, ?_⟩
  rw [he]
  simp

/-- Claim C2 amended: for every pickup order accepted by create_order,
the persisted deliveryFee equals the client-supplied delivery_fee
(which is 0 only when the client omitted the field and the pydantic
default applied); the handler does not force it to 0. -/
theorem c2_amended_pickup_fee_passthrough (order_data : Order) (current_user : User)
    (now : ℕ) (db : DB) (hp : order_data.order_type = "pickup") :
    (created_order order_data current_user now db).map Order.delivery_fee =
      some order_data.delivery_fee := by
  have h := create_order_run order_data current_user now db
  simp only [created_order, h]
  have hd : ¬ order_data.order_type = "delivery" := by simp [hp]
  simp [finalize_order, hd]

/-- Claim C2 amended, witness: the pickup request with client fee 7
instantiates the amended statement. -/
theorem c2_amended_witness :
    c2_request.order_type = "pickup" ∧
    (created_order c2_request sample_user 0 []).map Order.delivery_fee =
      some c2_request.delivery_fee :=
  ⟨rfl, c2_amended_pickup_fee_passthrough c2_request sample_user 0 [] rfl⟩

/-- Claim C4 counterexample: a pickup order with subtotal 13.95 whose
client supplied delivery_fee 100 is persisted with total 115.14, not
15.14; and a pickup order with client subtotal 0.111 is persisted with
total 0.121, which is not a value rounded to 2 decimal places. -/
theorem c4_counterexample :
    (created_order c4_request sample_user 0 []).map Order.order_type = some "pickup" ∧
    (created_order c4_request sample_user 0 []).map Order.subtotal = some (1395/100) ∧
    (created_order c4_request sample_user 0 []).map Order.total = some (11514/100) ∧
    (created_order c4_request sample_user 0 []).map Order.total ≠ some (1514/100) ∧
    (created_order c4b_request sample_user 0 []).map Order.total = some (121/1000) ∧
    (created_order c4b_request sample_user 0 []).map Order.total ≠
      (created_order c4b_request sample_user 0 []).map (fun o => round2 o.total) := by
  have h := create_order_run c4_request sample_user 0 []
  have hb := create_order_run c4b_request sample_user 0 []
  have ht : (created_order c4_request sample_user 0 []).map Order.total =
      some (11514/100) := by
    simp only [created_order]
    rw [h]
    simp [finalize_order, c4_request, base_request]
    norm_num [round2, round_half_even]
  have htb : (created_order c4b_request sample_user 0 []).map Order.total =
      some (121/1000) := by
    simp only [created_order]
    rw [hb]
    simp [finalize_order, c4b_request, base_request]
    norm_num [round2, round_half_even]
  have hrb : (created_order c4b_request sample_user 0 []).map (fun o => round2 o.total) =
      some (12/100) := by
    simp only [created_order]
    rw [hb]
    simp [finalize_order, c4b_request, base_request]
    norm_num [round2, round_half_even]
  refine ⟨?_, ?_, ht, ?_, htb, ?_⟩
  · simp only [created_order]
    rw [h]
    simp [finalize_order, c4_request, base_request]
  · simp only [created_order]
    rw [h]
    simp [finalize_order, c4_request, base_request]
  · rw [ht]
    simp
    norm_num
  · rw [htb, hrb]
    simp
    norm_num

/-- Claim C4 amended: for every order accepted by create_order, the
persisted tax equals round(subtotal times 0.085, 2) (round half to
even) of the persisted subtotal, and the persisted total equals
subtotal + deliveryFee + tax exactly, with no rounding applied to the
sum; the concrete 13.95 pickup instance holds when the client delivery
fee is 0 (see the witness). -/
theorem c4_amended_pricing (order_data : Order) (current_user : User) (now : ℕ)
    (db : DB) (o : Order) (db2 : DB)
    (h : create_order order_data current_user now db = Except.ok (o, db2)) :
    o.tax = round2 (o.subtotal * (85/1000)) ∧
    o.total = o.subtotal + o.delivery_fee + o.tax := by
  rw [create_order_run] at h
  simp only [Except.ok.injEq, Prod.mk.injEq] at h
  obtain ⟨h1, -⟩ := h
  subst h1
  simp [finalize_order]

/-- Claim C4 amended, witness: the repository smoke-test request (pickup,
subtotal 13.95, delivery fee 0) is persisted with tax 1.19 and total
15.14, matching the amended pricing equations. -/
theorem c4_amended_witness :
    create_order base_request sample_user 0 [] = Except.ok (c4_expected, [c4_expected]) ∧
    c4_expected.tax = round2 (c4_expected.subtotal * (85/1000)) ∧
    c4_expected.total = c4_expected.subtotal + c4_expected.delivery_fee + c4_expected.tax ∧
    c4_expected.tax = 119/100 ∧ c4_expected.total = 1514/100 := by
  have heq : create_order base_request sample_user 0 [] =
      Except.ok (c4_expected, [c4_expected]) := by
    rw [create_order_run]
    simp [finalize_order, base_request, sample_user, c4_expected]
    norm_num [round2, round_half_even]
  have h2 := c4_amended_pricing base_request sample_user 0 [] c4_expected
    [c4_expected] heq
  exact ⟨heq, h2.1, h2.2, rfl, rfl⟩

/-- Claim C5 counterexample: a request with an empty cart is accepted by
create_order and an order document is persisted; no InvalidCartError
is raised. -/
theorem c5_counterexample :
    c5_request.items = [] ∧
    (created_order c5_request sample_user 0 []).isSome = true ∧
    (created_db c5_request sample_user 0 []).map List.length = some 1 := by
  have h := create_order_run c5_request sample_user 0 []
  refine ⟨rfl, ?_, ?_⟩
  · simp only [created_order]
    rw [h]
    simp [c5_request, base_request]
  · simp only [created_db]
    rw [h]
    simp [c5_request, base_request]

/-- Claim C5 amended: create_order performs no cart validation: every
request, in particular one whose items list is empty, is accepted, and
the constructed order is appended to the orders collection. -/
theorem c5_amended_no_cart_validation (order_data : Order) (current_user : User)
    (now : ℕ) (db : DB) (_hempty : order_data.items = []) :
    (created_order order_data current_user now db).isSome = true ∧
    created_db order_data current_user now db =
      (created_order order_data current_user now db).map (fun o => db ++ [o]) := by
  have h := create_order_run order_data current_user now db
  constructor
  · simp only [created_order]
    rw [h]
    simp
  · simp only [created_order, created_db]
    rw [h]
    simp

/-- Claim C5 amended, witness: the empty-cart request instantiates the
amended statement. -/
theorem c5_amended_witness :
    c5_request.items = [] ∧
    (created_order c5_request sample_user 0 []).isSome = true ∧
    created_db c5_request sample_user 0 [] =
      (created_order c5_request sample_user 0 []).map (fun o => [] ++ [o]) :=
  ⟨rfl, (c5_amended_no_cart_validation c5_request sample_user 0 [] rfl).1,
    (c5_amended_no_cart_validation c5_request sample_user 0 [] rfl).2⟩

/-- Claim C6 counterexample: a delivery order without a delivery address
is accepted by create_order and persisted with order_type delivery and
no address — no MissingAddressError is raised, and address presence is
not equivalent to orderType = delivery in the persisted data. -/
theorem c6_counterexample :
    c6_request.order_type = "delivery" ∧
    c6_request.delivery_address = none ∧
    (created_order c6_request sample_user 0 []).map
      (fun o => (o.order_type, o.delivery_address)) = some ("delivery", none) := by
  have h := create_order_run c6_request sample_user 0 []
  refine ⟨rfl, rfl, ?_⟩
  simp only [created_order]
  rw [h]
  simp [finalize_order, c6_request, base_request]

/-- Claim C6 amended: create_order does not require an address for
delivery orders: when order_type is delivery and delivery_address is
absent, the eligibility step is skipped and the order is persisted
with no address and the client-supplied delivery fee. -/
theorem c6_amended_no_address_check (order_data : Order) (current_user : User)
    (now : ℕ) (db : DB) (h1 : order_data.order_type = "delivery")
    (h2 : order_data.delivery_address = none) :
    (created_order order_data current_user now db).map
      (fun o => (o.order_type, o.delivery_address, o.delivery_fee)) =
      some ("delivery", none, order_data.delivery_fee) := by
  have h := create_order_run order_data current_user now db
  simp only [created_order]
  rw [h]
  simp [finalize_order, h1, h2]

/-- Claim C6 amended, witness: the address-less delivery request
instantiates the amended statement. -/
theorem c6_amended_witness :
    c6_request.order_type = "delivery" ∧
    c6_request.delivery_address = none ∧
    (created_order c6_request sample_user 0 []).map
      (fun o => (o.order_type, o.delivery_address, o.delivery_fee)) =
      some ("delivery", none, c6_request.delivery_fee) :=
  ⟨rfl, rfl, c6_amended_no_address_check c6_request sample_user 0 [] rfl rfl⟩

/-- Claim C3 counterexample: with provider cash, amount 10, currency usd
and a metadata dict carrying order_id, create_payment_intent returns a
locally built pseudo-intent whose status is "pending", not
"completed". -/
theorem c3_counterexample :
    intent_status (create_payment_intent sample_service 10 "usd"
      PaymentProvider.cash (some [("order_id", "o1")])) = some "pending" ∧
    intent_status (create_payment_intent sample_service 10 "usd"
      PaymentProvider.cash (some [("order_id", "o1")])) ≠ some "completed" := by
  constructor
  · simp [create_payment_intent, intent_status]
  · simp [create_payment_intent, intent_status]

/-- Claim C3 amended: for every service configuration, amount, currency
and supplied metadata dict, create_payment_intent with provider cash
returns, without any external call, a pseudo-intent whose status is
"pending" (when metadata is absent the cash branch raises
AttributeError instead); the "completed" status for cash is what
confirm_payment returns, also without any external call. -/
theorem c3_amended_cash_flow (svc : PaymentService) (amount : ℚ) (currency : String)
    (md : List (String × String)) (payment_id : String) :
    intent_status (create_payment_intent svc amount currency
      PaymentProvider.cash (some md)) = some "pending" ∧
    is_external (create_payment_intent svc amount currency
      PaymentProvider.cash (some md)) = false ∧
    create_payment_intent svc amount currency PaymentProvider.cash none =
      PayResult.attributeError ∧
    intent_status (confirm_payment svc payment_id PaymentProvider.cash) =
      some "completed" ∧
    is_external (confirm_payment svc payment_id PaymentProvider.cash) = false := by
  refine ⟨?_, ?_, ?_, ?_, ?_⟩ <;>
    simp [create_payment_intent, confirm_payment, intent_status, is_external]

/-- Claim C7: the eligibility result follows the fee schedule on the
computed distance — at the distance the source computes the resolver
returns the schedule value (first conjunct, definitional), and the
schedule over a distance d gives fee 4 and eligible for d at most 5,
fee 4 + 2(d - 5) and eligible for d between 5 and 9, and ineligible
beyond 9 — in which case the create_order orchestration rejects the
request with the address-outside-service-area error and persists
nothing (stated over the orchestration with the resolver result
abstracted, since the reference resolver never answers ineligible,
see C10). -/
theorem c7_fee_schedule_and_rejection (d : ℚ)
    (resolver : String → ℚ × Bool × ℚ) (order_data : Order) (current_user : User)
    (now : ℕ) (db : DB) (a : Address)
    (hd : order_data.order_type = "delivery")
    (ha : order_data.delivery_address = some a)
    (hin : (resolver (address_string a)).2.1 = false) :
    (∀ s, calculate_delivery_fee s = calculate_delivery_fee_at 3) ∧
    (d ≤ 5 → calculate_delivery_fee_at d = (4, true, d)) ∧
    (5 < d → d ≤ 9 → calculate_delivery_fee_at d = (4 + (d - 5) * 2, true, d)) ∧
    (9 < d → calculate_delivery_fee_at d = (0, false, d)) ∧
    create_order_gen resolver order_data current_user now db =
      Except.error Err.addressOutsideServiceArea := by
  refine ⟨fun s => rfl, ?_, ?_, ?_, ?_⟩
  · intro h5
    simp [calculate_delivery_fee_at, h5]
  · intro h5 h9
    simp [calculate_delivery_fee_at, not_le.mpr h5, h9]
  · intro h9
    have h5 : ¬ d ≤ 5 := not_le.mpr (lt_trans (by norm_num) h9)
    simp [calculate_delivery_fee_at, h5, not_le.mpr h9]
  · simp [create_order_gen, apply_delivery_fee, hd, ha, hin]

/-- Claim C7 witness: the schedule cases at distances 3, 7 and 12, the
resolver following the schedule at its computed distance, and the
rejection of a delivery request when the resolver answers
ineligible. -/
theorem c7_witness :
    calculate_delivery_fee_at 3 = (4, true, 3) ∧
    calculate_delivery_fee_at 7 = (4 + (7 - 5) * 2, true, 7) ∧
    calculate_delivery_fee_at 12 = (0, false, 12) ∧
    calculate_delivery_fee (address_string sample_address) =
      calculate_delivery_fee_at 3 ∧
    create_order_gen ineligible_resolver c7_request sample_user 0 [] =
      Except.error Err.addressOutsideServiceArea := by
  have h3 := c7_fee_schedule_and_rejection 3 ineligible_resolver c7_request
    sample_user 0 [] sample_address rfl rfl rfl
  have h7 := c7_fee_schedule_and_rejection 7 ineligible_resolver c7_request
    sample_user 0 [] sample_address rfl rfl rfl
  have h12 := c7_fee_schedule_and_rejection 12 ineligible_resolver c7_request
    sample_user 0 [] sample_address rfl rfl rfl
  exact ⟨h3.2.1 (by norm_num), h7.2.2.1 (by norm_num) (by norm_num),
    h12.2.2.2.1 (by norm_num), h3.1 _, h3.2.2.2.2⟩

/-- Claim C8: for every admin actor, every order collection and every
target status outside the enumerated set, update_order_status fails
with the invalid-status error and returns the collection unchanged —
every persisted order keeps every field. -/
theorem c8_unknown_status_rejected (order_id target : String) (current_user : User)
    (db : DB) (ha : current_user.is_admin = true) (hs : target ∉ valid_statuses) :
    update_order_status order_id target current_user db =
      (Except.error Err.invalidStatus, db) := by
  simp [update_order_status, ha, hs]

/-- Claim C8 witness: an admin moving a delivered order to the unknown
status "shipped" gets the invalid-status error and the collection is
unchanged. -/
theorem c8_witness :
    admin_user.is_admin = true ∧
    "shipped" ∉ valid_statuses ∧
    update_order_status "o1" "shipped" admin_user [delivered_order] =
      (Except.error Err.invalidStatus, [delivered_order]) :=
  ⟨rfl, by decide,
    c8_unknown_status_rejected "o1" "shipped" admin_user [delivered_order] rfl
      (by decide)⟩

/-- Claim C9 counterexample: a single update_order_status call moves an
order out of the terminal status delivered back to pending — the
lifecycle graph is not enforced. -/
theorem c9_counterexample :
    delivered_order.status = "delivered" ∧
    update_order_status "o1" "pending" admin_user [delivered_order] =
      (Except.ok (), [({ delivered_order with status := "pending" } : Order)]) ∧
    ({ delivered_order with status := "pending" } : Order).status ≠ "delivered" := by
  refine ⟨rfl, ?_, by decide⟩
  simp [update_order_status, mongo_update_status, admin_user, delivered_order,
    valid_statuses, base_request]

/-- Claim C9 amended: update_order_status enforces only membership of the
target in the six enumerated statuses, not forward movement: an admin
can move any persisted order — including one in a terminal status
(delivered, cancelled) — to any enumerated status different from its
current one, and the new status is persisted.  (There is no pickedUp
status in the code.) -/
theorem c9_amended_any_enumerated_jump (o : Order) (target : String)
    (current_user : User) (ha : current_user.is_admin = true)
    (ht : target ∈ valid_statuses) (hne : o.status ≠ target) :
    update_order_status o.id target current_user [o] =
      (Except.ok (), [({ o with status := target } : Order)]) := by
  simp [update_order_status, mongo_update_status, ha, ht, hne]

/-- Claim C9 amended, witness: an admin moves a delivered order to
pending, and the persisted status becomes pending. -/
theorem c9_amended_witness :
    admin_user.is_admin = true ∧
    "pending" ∈ valid_statuses ∧
    delivered_order.status ≠ "pending" ∧
    update_order_status delivered_order.id "pending" admin_user [delivered_order] =
      (Except.ok (), [({ delivered_order with status := "pending" } : Order)]) :=
  ⟨rfl, by decide, by decide,
    c9_amended_any_enumerated_jump delivered_order "pending" admin_user rfl
      (by decide) (by decide)⟩

/-- Claim C10: calculate_delivery_fee is the constant function returning
fee 4, eligible, distance 3 for every address string — so repeated
resolution yields identical results — and consequently no invocation
of create_order can ever return the address-outside-service-area
rejection. -/
theorem c10_resolver_constant_and_rejection_unreachable :
    (∀ s, calculate_delivery_fee s = (4, true, 3)) ∧
    (∀ s1 s2, calculate_delivery_fee s1 = calculate_delivery_fee s2) ∧
    (∀ (order_data : Order) (current_user : User) (now : ℕ) (db : DB),
      create_order order_data current_user now db ≠
        Except.error Err.addressOutsideServiceArea) := by
  have hconst : ∀ s, calculate_delivery_fee s = (4, true, 3) := by
    intro s
    have h35 : (3:ℚ) ≤ 5 := by norm_num
    simp [calculate_delivery_fee, calculate_delivery_fee_at, h35]
  refine ⟨hconst, fun s1 s2 => (hconst s1).trans (hconst s2).symm, ?_⟩
  intro order_data current_user now db hcontra
  rw [create_order_run] at hcontra
  simp at hcontra

end Pizza
